import Mathlib

/-!
Verification development for the Pharma-agent repository: a shallow embedding
of the mock data-source tools, the worker/master agents, the LangGraph-style
workflow (`src/workflows/workflow.py`), and the FastAPI layer
(`src/api/main.py`), together with theorems settling the specification
claims about them.

Conventions of the embedding:
* Python dicts with fixed keys become Lean structures; dict insertion-order
  maps become association lists (`List (key × value)`).
* `random.*` draws are passed in explicitly as fields of a `*Rand` structure:
  every generator is a pure function of the molecule name and the draws.
* Exceptions become `Except`; an LLM call becomes an oracle function held in
  an `Env` structure.
* Python floats that only ever get compared or embedded in text are modelled
  as `Rat` (their textual rendering therefore differs from CPython's float
  formatting, which no claim depends on).
* Dates are modelled as integer day counts instead of formatted strings.
-/

namespace Pharma

/-! ## Python string/truthiness helpers -/

/-- Truthiness of a Python `Optional[str]`: `None` and `""` are falsy. -/
def pyTruthy : Option String → Bool
  | none => false
  | some s => s ≠ ""

/-- Python `x or d` for an optional string `x`: the default wins when `x`
is `None` or empty. -/
def pyOrStr (x : Option String) (d : String) : String :=
  match x with
  | none => d
  | some s => if s = "" then d else s

/-- Accumulator pass over the characters for `pySplit`: `cur` holds the
reversed characters of the word in progress. -/
def pySplitAux : List Char → List Char → List String
  | [], cur => if cur.isEmpty then [] else [⟨cur.reverse⟩]
  | c :: cs, cur =>
      if c.isWhitespace then
        if cur.isEmpty then pySplitAux cs []
        else (⟨cur.reverse⟩ : String) :: pySplitAux cs []
      else pySplitAux cs (c :: cur)

/-- Python `str.split()` with no argument: split on runs of whitespace,
dropping empty pieces. -/
def pySplit (s : String) : List String :=
  pySplitAux s.data []

/-- A quote character, single or double (the set Python strips in
`strip('"\x27')`). -/
def isQuoteChar (c : Char) : Bool :=
  c == '"' || c == Char.ofNat 39

/-- Python `s.strip('"\x27')`: drop leading and trailing quote characters. -/
def stripQuotes (s : String) : String :=
  ⟨((s.data.dropWhile isQuoteChar).reverse.dropWhile isQuoteChar).reverse⟩

/-- Whether `pat` occurs as a contiguous sublist of `l`. -/
def isInfixB (pat : List Char) : List Char → Bool
  | [] => pat.isEmpty
  | c :: tl => pat.isPrefixOf (c :: tl) || isInfixB pat tl

/-- Python `pat in s` for strings: substring containment. -/
def strContainsSub (s pat : String) : Bool :=
  isInfixB pat.data s.data

/-- Keep the first occurrence of every element (the key order of a Python
dict built by repeated insertion). -/
def dedupFirst {α : Type} [DecidableEq α] : List α → List α → List α
  | _, [] => []
  | seen, a :: l =>
    if a ∈ seen then dedupFirst seen l else a :: dedupFirst (a :: seen) l

/-! ## Mock tools (`src/tools/*.py`)

Each `_get_mock_*_data` function draws random values and assembles a record
for the named molecule, with no external call.  The draws appear here as the
fields of a `*Rand` structure. -/

/-- The `competition` sub-dict of the IQVIA record. -/
structure IqviaCompetition where
  total_competitors : Nat
  top_competitors : List String
  market_concentration : String
deriving Repr, DecidableEq

/-- Return record of `_get_mock_iqvia_data` (`src/tools/iqvia_tool.py`). -/
structure IqviaData where
  molecule : String
  region : String
  market_size_usd_millions : Nat
  cagr_percent : Rat
  forecast_years : Nat
  market_trend : String
  competition : IqviaCompetition
  therapy_areas : List String
  key_insights : List String
  data_source : String
  last_updated : String
deriving Repr, DecidableEq

/-- The random draws made by `_get_mock_iqvia_data`. -/
structure IqviaRand where
  /-- `random.randint(500, 5000)` -/
  base_market_size : Nat
  /-- `round(random.uniform(-5.0, 15.0), 2)` -/
  cagr : Rat
  /-- `random.randint(3, 25)` -/
  competition_count : Nat
  /-- `random.sample(therapy_areas, k=random.randint(1, 3))` -/
  selected_therapy_areas : List String
  /-- `random.choice(["High", "Medium", "Low"])` inside `competition` -/
  market_concentration : String
  /-- the second, independent `random.choice` inside `key_insights` -/
  insight_concentration : String
deriving Repr, DecidableEq

/-- `_get_mock_iqvia_data(molecule, region)` as a pure function of the
draws.  The `region` key of the result is `region or "Global"`. -/
def get_mock_iqvia_data (molecule : String) (region : Option String)
    (r : IqviaRand) : IqviaData :=
  let competitors :=
    ([molecule ++ " Generic A", molecule ++ " Generic B",
      molecule ++ " Brand X", molecule ++ " Brand Y",
      "Competitor Molecule 1", "Competitor Molecule 2"]).take r.competition_count
  { molecule := molecule
    region := pyOrStr region "Global"
    market_size_usd_millions := r.base_market_size
    cagr_percent := r.cagr
    forecast_years := 5
    market_trend :=
      if r.cagr > 2 then "Growing" else if r.cagr > -2 then "Stable" else "Declining"
    competition :=
      { total_competitors := r.competition_count
        top_competitors := competitors.take 5
        market_concentration := r.market_concentration }
    therapy_areas := r.selected_therapy_areas
    key_insights :=
      [ "Market size of $" ++ toString r.base_market_size ++ "M with " ++
          toString r.cagr ++ "% CAGR",
        toString r.competition_count ++ " active competitors in the market",
        "Primary therapy areas: " ++ String.intercalate ", " r.selected_therapy_areas,
        "Market concentration: " ++ r.insight_concentration ]
    data_source := "IQVIA Market Intelligence (Mock)"
    last_updated := "2024-Q4" }

/-- One entry of `top_exporters` / `top_importers` in the EXIM record. -/
structure TradeEntry where
  country : String
  volume_tons : Rat
deriving Repr, DecidableEq

/-- Return record of `_get_mock_exim_data` (`src/tools/exim_tool.py`). -/
structure EximData where
  molecule : String
  import_dependency_percent : Rat
  risk_level : String
  risk_zones : List String
  top_exporters : List TradeEntry
  top_importers : List TradeEntry
  formulations : List String
  total_import_volume_tons : Rat
  total_export_volume_tons : Rat
  trade_trend : String
  key_insights : List String
  data_source : String
  last_updated : String
deriving Repr, DecidableEq

/-- The random draws made by `_get_mock_exim_data`.  Per-country volumes are
drawn inside list comprehensions; they appear here zipped with the sampled
country names. -/
structure EximRand where
  /-- `random.sample(exporter_countries, k=random.randint(2, 4))` -/
  top_exporters : List String
  /-- `random.sample(importer_countries, k=random.randint(2, 4))` -/
  top_importers : List String
  /-- `random.sample(formulations, k=random.randint(2, 4))` -/
  selected_formulations : List String
  /-- `round(random.uniform(30, 90), 1)` -/
  import_dependency_percent : Rat
  /-- per-exporter `round(random.uniform(50, 2000), 2)` -/
  exporter_volumes : List Rat
  /-- per-importer `round(random.uniform(100, 3000), 2)` -/
  importer_volumes : List Rat
  /-- `round(random.uniform(100, 5000), 2)` -/
  total_import_volume : Rat
  /-- `round(random.uniform(50, 3000), 2)` -/
  total_export_volume : Rat
  /-- `random.choice(["Increasing", "Stable", "Declining"])` -/
  trade_trend : String
deriving Repr, DecidableEq

/-- `_get_mock_exim_data(molecule)` as a pure function of the draws. -/
def get_mock_exim_data (molecule : String) (r : EximRand) : EximData :=
  let riskPair : String × List String :=
    if r.import_dependency_percent > 70 then ("High", r.top_exporters.take 2)
    else if r.import_dependency_percent > 50 then ("Medium", r.top_exporters.take 1)
    else ("Low", [])
  { molecule := molecule
    import_dependency_percent := r.import_dependency_percent
    risk_level := riskPair.1
    risk_zones := riskPair.2
    top_exporters :=
      (r.top_exporters.zip r.exporter_volumes).map (fun p => ⟨p.1, p.2⟩)
    top_importers :=
      (r.top_importers.zip r.importer_volumes).map (fun p => ⟨p.1, p.2⟩)
    formulations := r.selected_formulations
    total_import_volume_tons := r.total_import_volume
    total_export_volume_tons := r.total_export_volume
    trade_trend := r.trade_trend
    key_insights :=
      [ "Import dependency: " ++ toString r.import_dependency_percent ++ "%",
        "Risk level: " ++ riskPair.1,
        (match r.top_exporters with
          | [] => "No major exporters"
          | c :: _ => "Top exporter: " ++ c),
        "Primary formulations: " ++
          String.intercalate ", " (r.selected_formulations.take 2) ]
    data_source := "EXIM Trade Intelligence (Mock)"
    last_updated := "2024-Q4" }

/-- One generated patent (`src/tools/patent_tool.py`).  The source renders
`filing_date` / `expiry_date` with `strftime`; here they stay day counts. -/
structure Patent where
  patent_number : String
  title : String
  assignee : String
  filing_day : Int
  expiry_day : Int
  status : String
  /-- dict key `type` in the source -/
  ptype : String
  jurisdiction : String
deriving Repr, DecidableEq

/-- Per-patent random draws of `_get_mock_patent_data`. -/
structure PatentDraw where
  /-- `random.randint(0, 25)` -/
  years_ago : Nat
  /-- `random.choice` over the five patent types -/
  patent_type : String
  /-- `random.choice(assignees)` -/
  assignee : String
  /-- `random.randint(10000000, 99999999)` -/
  number : Nat
  /-- `random.choice(["US", "EP", "WO", "IN"])` -/
  jurisdiction : String
deriving Repr, DecidableEq

/-- The `fto_assessment` sub-dict. -/
structure FtoAssessment where
  status : String
  risk_level : String
  reason : String
  blocking_patents : List Patent
deriving Repr, DecidableEq

/-- Return record of `_get_mock_patent_data`. -/
structure PatentData where
  molecule : String
  therapy_area : Option String
  total_patents : Nat
  active_patents : Nat
  expired_patents : Nat
  patents : List Patent
  fto_assessment : FtoAssessment
  upcoming_expiries : Nat
  key_insights : List String
  data_source : String
  last_updated : String
deriving Repr, DecidableEq

/-- The random draws of `_get_mock_patent_data`: the number of patents is
the length of `patent_draws`.  `top_assignee_pick` stands for the element of
`set(p.assignee for p in patents)` that CPython's nondeterministic set
iteration hands to `max` (all `patents.count(assignee)` keys are `0`, so
`max` returns the first set element). -/
structure PatentRand where
  patent_draws : List PatentDraw
  top_assignee_pick : String
deriving Repr, DecidableEq

/-- One patent built inside the generation loop.  `now` is
`datetime.now()` in days; the 20-year term is `20 * 365` days. -/
def mkPatent (molecule : String) (now : Int) (d : PatentDraw) : Patent :=
  let filing : Int := now - d.years_ago * 365
  let expiry : Int := filing + 20 * 365
  { patent_number := "US" ++ toString d.number
    title := molecule ++ " " ++ d.patent_type ++ " Patent"
    assignee := d.assignee
    filing_day := filing
    expiry_day := expiry
    status := if expiry > now then "Active" else "Expired"
    ptype := d.patent_type
    jurisdiction := d.jurisdiction }

/-- `_get_mock_patent_data(molecule, therapy_area)` as a pure function of
`now` (days) and the draws. -/
def get_mock_patent_data (molecule : String) (therapy_area : Option String)
    (now : Int) (r : PatentRand) : PatentData :=
  let patents := r.patent_draws.map (mkPatent molecule now)
  let active := patents.filter (fun p => p.status = "Active")
  let expired := patents.filter (fun p => p.status = "Expired")
  let ftoTriple : String × String × String :=
    if active.length = 0 then
      ("Green", "Low", "No active patents blocking the molecule")
    else if active.length ≤ 3 then
      ("Amber", "Medium",
        toString active.length ++
          " active patents may require licensing or design-around")
    else
      ("Red", "High",
        toString active.length ++ " active patents create significant FTO risk")
  let upcoming := active.filter (fun p => p.expiry_day < now + 5 * 365)
  { molecule := molecule
    therapy_area := therapy_area
    total_patents := r.patent_draws.length
    active_patents := active.length
    expired_patents := expired.length
    patents := patents
    fto_assessment :=
      { status := ftoTriple.1
        risk_level := ftoTriple.2.1
        reason := ftoTriple.2.2
        blocking_patents := active.take 3 }
    upcoming_expiries := upcoming.length
    key_insights :=
      [ "FTO Status: " ++ ftoTriple.1 ++ " (" ++ ftoTriple.2.1 ++ " risk)",
        toString active.length ++ " active patents, " ++
          toString expired.length ++ " expired",
        toString upcoming.length ++ " patents expiring in next 5 years",
        if patents.isEmpty then "No patents found"
        else "Top assignee: " ++ r.top_assignee_pick ]
    data_source := "USPTO Patent Database (Mock)"
    last_updated := "2024-Q4" }

/-- Zero-padded two-digit rendering, as Python's `f"{n:02d}"`. -/
def pad2 (n : Nat) : String :=
  if n < 10 then "0" ++ toString n else toString n

/-- Stable insertion into a descending-by-key list (elements with equal keys
keep their relative order, as Python's stable `sorted(..., reverse=True)`). -/
def insertDescBy {α : Type} (key : α → Rat) (x : α) : List α → List α
  | [] => [x]
  | y :: tl => if key x > key y then x :: y :: tl else y :: insertDescBy key x tl

/-- Stable sort, descending by `key`. -/
def sortDescBy {α : Type} (key : α → Rat) (l : List α) : List α :=
  l.foldl (fun acc x => insertDescBy key x acc) []

/-- First element with the maximal key: Python's `max(..., key=...)`, which
keeps the earliest of equal maxima. -/
def firstMaxByCount (l : List (String × Nat)) : Option String :=
  (l.foldl
    (fun acc x =>
      match acc with
      | none => some x
      | some y => if x.2 > y.2 then some x else acc)
    none).map Prod.fst

/-- Counts per key, keys in first-occurrence order (a Python dict built by
`d[k] = d.get(k, 0) + 1`). -/
def countsByFirst (keys : List String) : List (String × Nat) :=
  (dedupFirst [] keys).map (fun k => (k, keys.count k))

/-- One generated clinical trial (`src/tools/clinical_trials_tool.py`).
`start_date` stays a day count; `end_date` is `none` when the source would
render the string `"Ongoing"` (end date not in the past). -/
structure Trial where
  trial_id : String
  title : String
  sponsor : String
  phase : String
  status : String
  indication : String
  start_day : Int
  end_day : Option Int
  countries : List String
  participants : Nat
deriving Repr, DecidableEq

/-- Per-trial random draws of `_get_mock_clinical_trials_data`. -/
structure TrialDraw where
  /-- `random.randint(10000000, 99999999)` -/
  nct : Nat
  /-- `random.choice(sponsors)` -/
  sponsor : String
  /-- `random.choice(phases)` -/
  phase : String
  /-- `random.choice([...statuses...])` -/
  status : String
  /-- `random.choice(indications)` -/
  indication : String
  /-- `random.randint(0, 2000)` -/
  start_days_ago : Nat
  /-- `random.randint(30, 1800)` -/
  duration_days : Nat
  /-- `random.sample(country list, k=random.randint(1, 4))` -/
  countries : List String
  /-- `random.randint(20, 5000)` -/
  participants : Nat
deriving Repr, DecidableEq

/-- Return record of `_get_mock_clinical_trials_data`. -/
structure ClinicalTrialsData where
  molecule : String
  mechanism : Option String
  total_trials : Nat
  ongoing_trials : Nat
  completed_trials : Nat
  terminated_trials : Nat
  trials : List Trial
  phase_distribution : List (String × Nat)
  emerging_indications : List (String × Nat)
  key_insights : List String
  data_source : String
  last_updated : String
deriving Repr, DecidableEq

/-- The fixed phase list of the source. -/
def trialPhases : List String :=
  ["Phase 1", "Phase 2", "Phase 3", "Phase 4", "Not Applicable"]

/-- One trial of the generation loop (`now` in days). -/
def mkTrial (molecule : String) (now : Int) (d : TrialDraw) : Trial :=
  let start : Int := now - d.start_days_ago
  let endDay : Int := start + d.duration_days
  { trial_id := "NCT" ++ toString d.nct
    title := "Study of " ++ molecule ++ " in " ++ d.indication
    sponsor := d.sponsor
    phase := d.phase
    status := d.status
    indication := d.indication
    start_day := start
    end_day := if endDay < now then some endDay else none
    countries := d.countries
    participants := d.participants }

/-- Whether a trial counts as ongoing in the source's categorization. -/
def trialOngoing (t : Trial) : Bool :=
  t.status = "Recruiting" || t.status = "Active, not recruiting"

/-- `_get_mock_clinical_trials_data(molecule, mechanism)` as a pure function
of `now` and the draws; the number of trials is `trial_draws.length`. -/
def get_mock_clinical_trials_data (molecule : String) (mechanism : Option String)
    (now : Int) (trial_draws : List TrialDraw) : ClinicalTrialsData :=
  let trials := trial_draws.map (mkTrial molecule now)
  let ongoing := trials.filter trialOngoing
  let completed := trials.filter (fun t => t.status = "Completed")
  let terminated :=
    trials.filter (fun t => t.status = "Terminated" || t.status = "Suspended")
  let phaseDist :=
    trialPhases.filterMap (fun ph =>
      let c := trials.countP (fun t => t.phase == ph)
      if c > 0 then some (ph, c) else none)
  let emergingKeys :=
    (trials.filter (fun t =>
      (t.phase = "Phase 2" || t.phase = "Phase 3") && trialOngoing t)).map
      (fun t => t.indication)
  let emerging := countsByFirst emergingKeys
  { molecule := molecule
    mechanism := mechanism
    total_trials := trial_draws.length
    ongoing_trials := ongoing.length
    completed_trials := completed.length
    terminated_trials := terminated.length
    trials := trials
    phase_distribution := phaseDist
    emerging_indications := sortDescBy (fun p => (p.2 : Rat)) emerging
    key_insights :=
      [ toString ongoing.length ++ " ongoing trials, " ++
          toString completed.length ++ " completed",
        "Phase distribution: " ++ String.intercalate ", "
          (phaseDist.map (fun p => p.1 ++ ": " ++ toString p.2)),
        (match firstMaxByCount emerging with
          | some top => "Top emerging indication: " ++ top
          | none => "No emerging indications identified"),
        "Geographic spread: " ++
          toString (dedupFirst [] (trials.flatMap (fun t => t.countries))).length ++
          " countries" ]
    data_source := "ClinicalTrials.gov / WHO ICTRP (Mock)"
    last_updated := "2024-Q4" }

/-- One internal document (`src/tools/internal_insights_tool.py`). -/
structure InternalDoc where
  document_id : String
  title : String
  /-- dict key `type` in the source -/
  dtype : String
  department : String
  date : String
  key_takeaways : List String
  relevance_score : Rat
deriving Repr, DecidableEq

/-- Per-document draws.  `key_takeaways` is the outcome of
`random.sample(takeaways, k=random.randint(2, 4))`, where the five takeaway
templates themselves embed further `random.choice` draws; the sampled list is
modelled directly as a drawn value. -/
structure DocDraw where
  /-- `random.choice(document_types)` -/
  doc_type : String
  /-- `random.choice(departments)` -/
  department : String
  /-- `random.randint(1000, 9999)` -/
  doc_id : Nat
  /-- `random.randint(1, 12)` -/
  month : Nat
  /-- `random.randint(1, 28)` -/
  day : Nat
  key_takeaways : List String
  /-- `round(random.uniform(0.6, 1.0), 2)` -/
  relevance_score : Rat
deriving Repr, DecidableEq

/-- Return record of `_get_mock_internal_data`. -/
structure InternalData where
  molecule : String
  document_filter : Option String
  total_documents : Nat
  documents : List InternalDoc
  strategy_alignment : String
  priority_level : String
  field_insights : List String
  key_insights : List String
  data_source : String
  last_updated : String
deriving Repr, DecidableEq

/-- Remaining draws of `_get_mock_internal_data`.  `top_department_pick`
models the element CPython's set iteration hands to
`max(set(...), key=documents.count)` (all keys are `0`, so the first set
element wins, nondeterministically). -/
structure InternalRand where
  doc_draws : List DocDraw
  /-- `random.choice(["High", "Medium", "Low"])` -/
  strategy_alignment : String
  /-- `random.choice(priorities)` -/
  priority_level : String
  /-- `random.sample(field_insights, k=random.randint(2, 4))` -/
  field_insights_sample : List String
  top_department_pick : String
deriving Repr, DecidableEq

/-- `_get_mock_internal_data(molecule, document_filter)` as a pure function
of the draws; the number of documents is `doc_draws.length`. -/
def get_mock_internal_data (molecule : String) (document_filter : Option String)
    (r : InternalRand) : InternalData :=
  let documents := r.doc_draws.map (fun d =>
    { document_id := "INT-" ++ toString d.doc_id
      title := d.doc_type ++ ": " ++ molecule ++ " Analysis"
      dtype := d.doc_type
      department := d.department
      date := "2024-" ++ pad2 d.month ++ "-" ++ pad2 d.day
      key_takeaways := d.key_takeaways
      relevance_score := d.relevance_score : InternalDoc })
  { molecule := molecule
    document_filter := document_filter
    total_documents := r.doc_draws.length
    documents := documents
    strategy_alignment := r.strategy_alignment
    priority_level := r.priority_level
    field_insights := r.field_insights_sample
    key_insights :=
      [ "Strategy alignment: " ++ r.strategy_alignment,
        "Priority level: " ++ r.priority_level,
        toString r.doc_draws.length ++ " relevant internal documents found",
        "Top department: " ++ r.top_department_pick ]
    data_source := "Internal Document Repository (Mock)"
    last_updated := "2024-Q4" }

/-- One web search hit (`src/tools/web_intelligence_tool.py`). -/
structure WebResult where
  title : String
  source : String
  source_type : String
  date : String
  url : String
  snippet : String
  relevance_score : Rat
deriving Repr, DecidableEq

/-- Per-result draws of `_get_mock_web_data`; the two `random.choice` calls
over the title-suffix and snippet template lists appear as indices. -/
structure WebDraw where
  /-- `random.choice(source_types)` -/
  source_type : String
  /-- `random.choice(sources)` -/
  source : String
  /-- `random.choice(["Analysis", "Study", "Update", "Review"])` -/
  title_idx : Nat
  /-- `random.randint(1, 12)` -/
  month : Nat
  /-- `random.randint(1, 28)` -/
  day : Nat
  /-- `random.choice(snippets)` -/
  snippet_idx : Nat
  /-- `round(random.uniform(0.5, 1.0), 2)` -/
  relevance_score : Rat
deriving Repr, DecidableEq

/-- Return record of `_get_mock_web_data`. -/
structure WebData where
  molecule : String
  target_indication : Option String
  total_results : Nat
  results : List WebResult
  by_source_type : List (String × Nat)
  key_insights : List String
  data_source : String
  last_updated : String
deriving Repr, DecidableEq

/-- The five snippet templates of the source. -/
def webSnippets (molecule : String) (target_indication : Option String) :
    List String :=
  [ molecule ++ " shows promise in " ++
      pyOrStr target_indication "new therapeutic areas",
    "Recent study demonstrates efficacy of " ++ molecule ++
      " in target population",
    "Regulatory approval pathway for " ++ molecule ++
      " repurposing appears feasible",
    "Market analysis indicates growing demand for " ++ molecule ++
      "-based therapies",
    "Clinical evidence supports " ++ molecule ++ " use in expanded indications" ]

/-- `molecule.lower().replace(' ', '-')` of the source's url template. -/
def urlSlug (molecule : String) : String :=
  molecule.toLower.map (fun c => if c = ' ' then '-' else c)

/-- One web result of the generation loop (`i` is the loop index). -/
def mkWebResult (molecule : String) (target_indication : Option String)
    (i : Nat) (d : WebDraw) : WebResult :=
  { title := molecule ++ " " ++ d.source_type ++ ": " ++
      (["Analysis", "Study", "Update", "Review"].getD d.title_idx "")
    source := d.source
    source_type := d.source_type
    date := "2024-" ++ pad2 d.month ++ "-" ++ pad2 d.day
    url := "https://example.com/" ++ urlSlug molecule ++ "-" ++ toString (i + 1)
    snippet := (webSnippets molecule target_indication).getD d.snippet_idx ""
    relevance_score := d.relevance_score }

/-- Remaining draws of `_get_mock_web_data`. -/
structure WebRand where
  result_draws : List WebDraw
  /-- `random.choice(["Strong", "Moderate", "Emerging"])` -/
  evidence_quality : String
deriving Repr, DecidableEq

/-- `_get_mock_web_data(molecule, target_indication)` as a pure function of
the draws; the number of results is `result_draws.length`. -/
def get_mock_web_data (molecule : String) (target_indication : Option String)
    (r : WebRand) : WebData :=
  let results :=
    r.result_draws.enum.map (fun p => mkWebResult molecule target_indication p.1 p.2)
  let bySourceType := countsByFirst (results.map (fun x => x.source_type))
  { molecule := molecule
    target_indication := target_indication
    total_results := r.result_draws.length
    results := sortDescBy (fun x => x.relevance_score) results
    by_source_type := bySourceType
    key_insights :=
      [ toString r.result_draws.length ++ " relevant sources found",
        "Top source type: " ++ (firstMaxByCount bySourceType).getD "N/A",
        "Recent publications: " ++
          toString (results.countP (fun x => strContainsSub x.date "2024")) ++
          " in 2024",
        "Evidence quality: " ++ r.evidence_quality ]
    data_source := "Web Intelligence Search (Mock)"
    last_updated := "2024-Q4" }

/-! ## Worker agents (`src/agents/*.py`)

A worker agent calls its tool, asks the LLM for prose, and packages both via
`BaseWorkerAgent.format_insights` into a result dict whose `key_findings` and
`recommendations` come from per-agent conditional rules. -/

/-- `IQVIAInsightsAgent._extract_key_findings` (`src/agents/iqvia_agent.py`):
conditional key findings from the raw IQVIA record.  The record always
carries the fields read here, so the `.get(..., default)` fallbacks of the
source never fire. -/
def extract_key_findings (data : IqviaData) : List String :=
  let market_size := data.market_size_usd_millions
  let cagr := data.cagr_percent
  let comp_count := data.competition.total_competitors
  let msFinding :=
    if market_size > 1000 then
      "Large market size: $" ++ toString market_size ++ "M USD"
    else if market_size > 500 then
      "Moderate market size: $" ++ toString market_size ++ "M USD"
    else
      "Emerging market: $" ++ toString market_size ++ "M USD"
  let cagrFinding :=
    if cagr > 5 then
      "Strong growth trajectory: " ++ toString cagr ++ "% CAGR"
    else if cagr > 0 then
      "Stable growth: " ++ toString cagr ++ "% CAGR"
    else
      "Declining market: " ++ toString cagr ++ "% CAGR"
  let compFinding :=
    if comp_count < 5 then
      "Low competition: " ++ toString comp_count ++ " competitors"
    else if comp_count < 15 then
      "Moderate competition: " ++ toString comp_count ++ " competitors"
    else
      "High competition: " ++ toString comp_count ++ " competitors"
  [msFinding, cagrFinding, compFinding] ++
    (if data.therapy_areas.isEmpty then []
     else ["Key therapy areas: " ++ String.intercalate ", " data.therapy_areas])

/-- `IQVIAInsightsAgent._generate_recommendations`. -/
def generate_recommendations (data : IqviaData) : List String :=
  let cagr := data.cagr_percent
  let comp_count := data.competition.total_competitors
  (if cagr > 5 ∧ comp_count < 10 then
    ["High-growth, low-competition market - strong repurposing opportunity"]
   else if cagr > 0 ∧ data.market_trend = "Growing" then
    ["Growing market with potential for new indications"]
   else []) ++
  (if comp_count > 20 then
    ["Highly competitive market - focus on niche indications or formulations"]
   else []) ++
  (if data.therapy_areas.length > 1 then
    ["Multiple therapy areas suggest cross-indication repurposing potential"]
   else [])

/-! ## Master agent and workflow (`src/workflows/`)

The LLM calls and the worker agents' `analyze` methods are the only
non-deterministic effectful pieces; they are abstracted into an `Env` of
oracles.  `Env.analyses` stands for `agent.analyze(molecule, ..., context)`:
`Except.ok` is the structured result dict it returns, `Except.error e` a
raised exception with message `e`. -/

/-- `context` dictionaries (`region`, `therapy_area`, ...) as association
lists of string keys to string values. -/
def Context : Type := List (String × String)

instance : DecidableEq Context := inferInstanceAs (DecidableEq (List (String × String)))

/-- The result dict built by `BaseWorkerAgent.format_insights`, minus the
per-agent-typed `raw_data` payload (no workflow-level claim reads it). -/
structure AgentInsights where
  agent_name : String
  role : String
  molecule : String
  analysis : String
  key_findings : List String
  recommendations : List String
deriving Repr, DecidableEq

/-- Oracles for the effectful calls of the system. -/
structure Env where
  /-- `agent.analyze(molecule, ..., context)` for the agent with the given
  short name.  The per-agent keyword extraction of
  `MasterAgent.execute_agent` (`region`, `therapy_area`, ...) is absorbed
  into the oracle, which receives the whole context. -/
  analyses : String → String → Context → Except String AgentInsights
  /-- the Master Agent's synthesis LLM call, as a function of everything the
  prompt template interpolates -/
  llmSynthesis : String → String → List String → String

/-- Keys of `MasterAgent.worker_agents`, in dict insertion order. -/
def workerAgentNames : List String :=
  ["iqvia", "exim", "patent", "clinical_trials", "internal", "web"]

/-- The `name` attribute of each worker agent (`src/agents/*.py`). -/
def agentDisplayName : String → String
  | "iqvia" => "IQVIA Insights Agent"
  | "exim" => "EXIM Trade Agent"
  | "patent" => "Patent Landscape Agent"
  | "clinical_trials" => "Clinical Trials Agent"
  | "internal" => "Internal Insights Agent"
  | "web" => "Web Intelligence Agent"
  | _ => ""

/-- `MasterAgent.determine_agents_to_run(query, molecule)`: always
`list(self.worker_agents.keys())`; both arguments are ignored. -/
def determine_agents_to_run (_query _molecule : String) : List String :=
  workerAgentNames

/-- A per-agent result slot value: either the structured insights dict, or
one of the two error-dict shapes (`{"agent_name", "error", "status":
"failed"}` from `MasterAgent.execute_agent`'s handler, `{"error", "status":
"failed"}` from a workflow node's handler). -/
inductive ResultDict where
  | insights (r : AgentInsights)
  | failedAgent (agent_name error : String)
  | failed (error : String)
deriving Repr, DecidableEq

/-- `result.get("status")`. -/
def ResultDict.status : ResultDict → Option String
  | .insights _ => none
  | .failedAgent _ _ => some "failed"
  | .failed _ => some "failed"

/-- `result.get("status") == "failed"`. -/
def ResultDict.isFailed (r : ResultDict) : Bool :=
  r.status == some "failed"

/-- `MasterAgent.execute_agent(agent_name, molecule, context)`.  The handler
inside it converts any exception of `agent.analyze` into an error dict, so
the call itself raises only for an unknown agent name. -/
def execute_agent (env : Env) (agent_name molecule : String) (context : Context) :
    Except String ResultDict :=
  if agent_name ∈ workerAgentNames then
    match env.analyses agent_name molecule context with
    | Except.ok r => Except.ok (ResultDict.insights r)
    | Except.error e =>
        Except.ok (ResultDict.failedAgent (agentDisplayName agent_name) e)
  else
    Except.error ("Unknown agent: " ++ agent_name)

/-- The dict built by `MasterAgent.synthesize_results`.  The unused local
`all_analyses` of the source is not modelled; the four fields of the
source's nested `summary` dict appear inline. -/
structure SynthResult where
  molecule : String
  query : String
  synthesis : String
  key_findings : List String
  recommendations : List String
  agent_results : List (String × ResultDict)
  total_agents_executed : Nat
  agents_failed_count : Nat
  key_insights_count : Nat
  recommendations_count : Nat
deriving Repr, DecidableEq

/-- The dict built by `DrugRepurposingWorkflow._prepare_report_data`
(its `summary` entry just copies the synthesis summary and is omitted). -/
structure ReportData where
  molecule : String
  query : String
  synthesis : String
  agent_results : List (String × ResultDict)
  key_findings : List String
  recommendations : List String
deriving Repr, DecidableEq

/-- `WorkflowState` (`src/workflows/state.py`).  `messages` is the plain list
of progress strings the nodes append (the `add_messages` reducer adds one
entry per appended string). -/
structure WorkflowState where
  molecule : String
  user_query : String
  context : Context
  agents_to_run : List String
  agents_completed : List String
  agents_failed : List String
  iqvia_result : Option ResultDict
  exim_result : Option ResultDict
  patent_result : Option ResultDict
  clinical_trials_result : Option ResultDict
  internal_result : Option ResultDict
  web_result : Option ResultDict
  synthesized_result : Option SynthResult
  report_data : Option ReportData
  current_step : String
  error : Option String
  messages : List String
deriving DecidableEq

/-- `results.get(name, {}).get("analysis", "N/A")` over the collected
results: the interpolation the synthesis prompt performs per agent. -/
def analysisOrNA (results : List (String × ResultDict)) (name : String) : String :=
  match results.lookup name with
  | some (ResultDict.insights r) => r.analysis
  | _ => "N/A"

/-- `MasterAgent.synthesize_results(results, molecule, query)`. -/
def synthesize_results (env : Env) (results : List (String × ResultDict))
    (molecule query : String) : SynthResult :=
  let ok := results.filter (fun p => !p.2.isFailed)
  let all_findings := ok.flatMap (fun p =>
    match p.2 with
    | ResultDict.insights r => r.key_findings.map (fun f => r.agent_name ++ ": " ++ f)
    | _ => [])
  let all_recommendations := ok.flatMap (fun p =>
    match p.2 with
    | ResultDict.insights r =>
        r.recommendations.map (fun rec => r.agent_name ++ ": " ++ rec)
    | _ => [])
  let synthesis := env.llmSynthesis molecule query
    (workerAgentNames.map (analysisOrNA results))
  { molecule := molecule
    query := query
    synthesis := synthesis
    key_findings := all_findings
    recommendations := all_recommendations
    agent_results := results
    total_agents_executed := (results.filter (fun p => !p.2.isFailed)).length
    agents_failed_count := (results.filter (fun p => p.2.isFailed)).length
    key_insights_count := all_findings.length
    recommendations_count := all_recommendations.length }

/-- `DrugRepurposingWorkflow._prepare_report_data(state, results)`, called
after `state["synthesized_result"]` was set to `synthesized`. -/
def prepare_report_data (st : WorkflowState) (synthesized : SynthResult)
    (results : List (String × ResultDict)) : ReportData :=
  { molecule := st.molecule
    query := st.user_query
    synthesis := synthesized.synthesis
    agent_results := results
    key_findings := synthesized.key_findings
    recommendations := synthesized.recommendations }

/-- Write the result slot of the named agent
(`state["<name>_result"] = result`). -/
def setAgentResult (name : String) (result : Option ResultDict)
    (st : WorkflowState) : WorkflowState :=
  match name with
  | "iqvia" => { st with iqvia_result := result }
  | "exim" => { st with exim_result := result }
  | "patent" => { st with patent_result := result }
  | "clinical_trials" => { st with clinical_trials_result := result }
  | "internal" => { st with internal_result := result }
  | "web" => { st with web_result := result }
  | _ => st

/-- Read the result slot of the named agent. -/
def getAgentResult (name : String) (st : WorkflowState) : Option ResultDict :=
  match name with
  | "iqvia" => st.iqvia_result
  | "exim" => st.exim_result
  | "patent" => st.patent_result
  | "clinical_trials" => st.clinical_trials_result
  | "internal" => st.internal_result
  | "web" => st.web_result
  | _ => none

/-- `DrugRepurposingWorkflow._plan_node`. -/
def plan_node (st : WorkflowState) : WorkflowState :=
  { st with
    current_step := "planning"
    messages := st.messages ++
      ["Planning workflow and determining which agents to run..."]
    agents_to_run := determine_agents_to_run st.user_query st.molecule
    agents_completed := []
    agents_failed := [] }

/-- `DrugRepurposingWorkflow._execute_<agent>_node`: the six execution nodes
share this shape, differing only in the agent short name.  The per-branch
handler appends to `agents_failed` only when `execute_agent` itself raises;
an exception inside the agent's `analyze` is already converted to an error
dict by `execute_agent` and lands in the result slot on the success path. -/
def execute_node (env : Env) (agent : String) (st : WorkflowState) :
    WorkflowState :=
  let st1 := { st with current_step := "execute_" ++ agent }
  let running := st1.messages ++
    ["Running " ++ agentDisplayName agent ++ "..."]
  match execute_agent env agent st1.molecule st1.context with
  | Except.ok result =>
      let st2 := setAgentResult agent (some result)
        { st1 with agents_completed := st1.agents_completed ++ [agent] }
      { st2 with messages := running ++
          [agentDisplayName agent ++ " completed successfully."] }
  | Except.error e =>
      let st2 := setAgentResult agent (some (ResultDict.failed e))
        { st1 with agents_failed := st1.agents_failed ++ [agent] }
      { st2 with messages := running ++
          [agentDisplayName agent ++ " failed: " ++ e] }

/-- `DrugRepurposingWorkflow._synthesize_node`. -/
def synthesize_node (env : Env) (st : WorkflowState) : WorkflowState :=
  let results : List (String × ResultDict) :=
    (workerAgentNames.map (fun n => (n, getAgentResult n st))).filterMap
      (fun p => p.2.map (fun r => (p.1, r)))
  let synthesized := synthesize_results env results st.molecule st.user_query
  { st with
    current_step := "completed"
    messages := st.messages ++
      ["Synthesizing results from all agents...",
       "Workflow completed. Synthesis and report data prepared."]
    synthesized_result := some synthesized
    report_data := some (prepare_report_data st synthesized results) }

/-! ### The graph (`DrugRepurposingWorkflow._build_graph`) -/

/-- LangGraph's `END` sentinel. -/
def ENDNODE : String := "__end__"

/-- The nodes added by `_build_graph`, in `add_node` order. -/
def graphNodes : List String :=
  ["plan", "execute_iqvia", "execute_exim", "execute_patent",
   "execute_clinical_trials", "execute_internal", "execute_web", "synthesize"]

/-- The edges added by `_build_graph`, in `add_edge` order: a linear chain
from `plan` through the six execution nodes to `synthesize` and `END`. -/
def graphEdges : List (String × String) :=
  [("plan", "execute_iqvia"),
   ("execute_iqvia", "execute_exim"),
   ("execute_exim", "execute_patent"),
   ("execute_patent", "execute_clinical_trials"),
   ("execute_clinical_trials", "execute_internal"),
   ("execute_internal", "execute_web"),
   ("execute_web", "synthesize"),
   ("synthesize", ENDNODE)]

/-- `set_entry_point("plan")`. -/
def entryPoint : String := "plan"

/-- The targets of the edges leaving a node. -/
def successors (n : String) : List String :=
  (graphEdges.filter (fun e => e.1 == n)).map Prod.snd

/-- The sequence of nodes a run visits: follow the unique out-edge from a
node until `END` (fuel-bounded; the graph is finite and acyclic). -/
def walkFrom : String → Nat → List String
  | _, 0 => []
  | n, fuel + 1 =>
      if n = ENDNODE then []
      else
        n :: (match successors n with
          | [next] => walkFrom next fuel
          | _ => [])

/-- The node function bound to each node name by `add_node`. -/
def applyNode (env : Env) (name : String) (st : WorkflowState) : WorkflowState :=
  match name with
  | "plan" => plan_node st
  | "execute_iqvia" => execute_node env "iqvia" st
  | "execute_exim" => execute_node env "exim" st
  | "execute_patent" => execute_node env "patent" st
  | "execute_clinical_trials" => execute_node env "clinical_trials" st
  | "execute_internal" => execute_node env "internal" st
  | "execute_web" => execute_node env "web" st
  | "synthesize" => synthesize_node env st
  | _ => st

/-- The order in which the compiled graph executes its nodes. -/
def executionOrder : List String :=
  ["plan", "execute_iqvia", "execute_exim", "execute_patent",
   "execute_clinical_trials", "execute_internal", "execute_web", "synthesize"]

/-- The `initial_state` dict of `DrugRepurposingWorkflow.run`
(`context or {}` maps an absent context to the empty dict). -/
def initialState (molecule query : String) (context : Option Context) :
    WorkflowState :=
  { molecule := molecule
    user_query := query
    context := context.getD []
    agents_to_run := []
    agents_completed := []
    agents_failed := []
    iqvia_result := none
    exim_result := none
    patent_result := none
    clinical_trials_result := none
    internal_result := none
    web_result := none
    synthesized_result := none
    report_data := none
    current_step := "initialized"
    error := none
    messages := [] }

/-- The states `graph.stream` yields, one per executed node, in execution
order: exactly the sequence of states handed to `on_state_update`. -/
def runStream (env : Env) (molecule query : String) (context : Option Context) :
    List WorkflowState :=
  (executionOrder.scanl (fun st n => applyNode env n st)
    (initialState molecule query context)).tail

/-- `DrugRepurposingWorkflow.run`: the state of the last stream update, and
the initial state if the stream were empty (`final_state or initial_state`). -/
def workflowRun (env : Env) (molecule query : String)
    (context : Option Context) : WorkflowState :=
  (runStream env molecule query context).getLastD
    (initialState molecule query context)

/-! ## API layer (`src/api/main.py`) -/

/-- The four-key dict the API snapshots a workflow state into (built both by
the `on_state_update` callback and the final response). -/
structure StateSnapshot where
  agents_completed : List String
  agents_failed : List String
  current_step : String
  messages : List String
deriving Repr, DecidableEq

/-- The snapshot of a workflow state. -/
def snapshotOf (st : WorkflowState) : StateSnapshot :=
  { agents_completed := st.agents_completed
    agents_failed := st.agents_failed
    current_step := st.current_step
    messages := st.messages }

/-- The `report_paths` dict of a chat response. -/
structure ReportPaths where
  pdf : String
  excel : String
  base_filename : String
deriving Repr, DecidableEq

/-- The `data` dict of a `ChatResponse` (its `summary` sub-dict inlined). -/
structure ChatDataM where
  molecule : String
  synthesis : String
  key_findings : List String
  recommendations : List String
  total_agents_executed : Nat
  agents_failed_count : Nat
  key_insights_count : Nat
  recommendations_count : Nat
deriving Repr, DecidableEq

/-- The `ChatResponse` model. -/
structure ChatResponseM where
  response : String
  status : String
  session_id : String
  data : ChatDataM
  report_paths : Option ReportPaths
  workflow_state : StateSnapshot
deriving Repr, DecidableEq

/-- One value of the `WORKFLOW_JOBS` map. -/
structure JobRecord where
  status : String
  error : Option String
  workflow_state : Option StateSnapshot
  result : Option ChatResponseM
deriving Repr, DecidableEq

/-- The in-memory `WORKFLOW_JOBS` dict: an insertion-ordered map from job id
to job record. -/
abbrev JobMap : Type := List (String × JobRecord)

/-- The key set (in insertion order) of the job map. -/
def keysOf (jobs : JobMap) : List String :=
  (jobs : List (String × JobRecord)).map Prod.fst

/-- `WORKFLOW_JOBS.get(job_id)`. -/
def lookupJob (jobs : JobMap) (job_id : String) : Option JobRecord :=
  (jobs : List (String × JobRecord)).lookup job_id

/-- Python dict assignment `WORKFLOW_JOBS[job_id] = rec`: overwrite in place
when the key exists, append a new entry otherwise. -/
def setJob (jobs : JobMap) (job_id : String) (rec : JobRecord) : JobMap :=
  if job_id ∈ keysOf jobs then
    (jobs : List (String × JobRecord)).map
      (fun p => if p.1 == job_id then (p.1, rec) else p)
  else
    jobs ++ [(job_id, rec)]

/-- Field assignment `WORKFLOW_JOBS[job_id][...] = ...`: rewrite the record
of an existing key, touching no other entry and never changing the key set.
(When the key is absent the source raises `KeyError`; either way no entry is
added or removed.) -/
def updateJob (jobs : JobMap) (job_id : String) (f : JobRecord → JobRecord) :
    JobMap :=
  (jobs : List (String × JobRecord)).map
    (fun p => if p.1 == job_id then (p.1, f p.2) else p)

/-- The record `chats_start` installs for a new job. -/
def queuedJob : JobRecord :=
  { status := "queued", error := none, workflow_state := none, result := none }

/-- The `ChatRequest` model (`message` is a required field). -/
structure ChatRequestM where
  message : String
  molecule : Option String
  session_id : Option String
deriving Repr, DecidableEq

/-- `POST /chats/start`: generate
`job_id = f"{session_id or 'session'}-{uuid4().hex[:8]}"` (the hex digits
appear as the argument `uuidHex8`), install a fresh queued record, and hand
the workflow to a background task.  Returns the new map and the job id. -/
def chats_start (jobs : JobMap) (session_id : Option String)
    (uuidHex8 : String) : JobMap × String :=
  let job_id := pyOrStr session_id "session" ++ "-" ++ uuidHex8
  (setJob jobs job_id queuedJob, job_id)

/-- Oracles for the API layer: the workflow oracles plus
`ReportGenerator.generate_reports`, which may raise. -/
structure ApiEnv where
  env : Env
  genReports : ReportData → Except String ReportPaths

/-- `_run_workflow_job(job_id, request_data)` as a job-map transformer.

The molecule is `request_data.get("molecule") or (message.split()[0] if
message else "Unknown")`; a whitespace-only message makes `split()[0]` raise
`IndexError`, which the enclosing handler turns into a failed job.  The
streaming callback stores a snapshot per node; on the missing-synthesis path
the source stores the whole final state dict under `workflow_state`, which
this model narrows to its snapshot. -/
def run_workflow_job (aenv : ApiEnv) (jobs : JobMap) (job_id : String)
    (req : ChatRequestM) : JobMap :=
  let jobs1 := updateJob jobs job_id
    (fun r => { r with status := "running", error := none })
  let message := req.message
  let moleculeE : Except Unit String :=
    if pyTruthy req.molecule then Except.ok (req.molecule.getD "")
    else if message = "" then Except.ok "Unknown"
    else
      match pySplit message with
      | [] => Except.error ()
      | w :: _ => Except.ok w
  match moleculeE with
  | Except.error _ =>
      updateJob jobs1 job_id (fun r =>
        { r with status := "failed"
                 error := some ("Error in background job " ++ job_id ++
                   ": list index out of range") })
  | Except.ok molecule =>
      let context : Context :=
        if pyTruthy req.molecule then [("molecule", req.molecule.getD "")] else []
      let states := runStream aenv.env molecule message (some context)
      let jobs2 := states.foldl
        (fun js st => updateJob js job_id
          (fun r => { r with workflow_state := some (snapshotOf st) }))
        jobs1
      let finalState := workflowRun aenv.env molecule message (some context)
      match finalState.synthesized_result with
      | none =>
          updateJob jobs2 job_id (fun r =>
            { r with status := "failed"
                     error := some "Workflow did not produce synthesized results"
                     workflow_state := some (snapshotOf finalState) })
      | some synth =>
          let report_paths : Option ReportPaths :=
            match finalState.report_data with
            | none => none
            | some rd =>
                match aenv.genReports rd with
                | Except.ok p => some p
                | Except.error _ => none
          let payload : ChatResponseM :=
            { response := synth.synthesis
              status := "completed"
              session_id := pyOrStr req.session_id "default"
              data :=
                { molecule := molecule
                  synthesis := synth.synthesis
                  key_findings := synth.key_findings
                  recommendations := synth.recommendations
                  total_agents_executed := synth.total_agents_executed
                  agents_failed_count := synth.agents_failed_count
                  key_insights_count := synth.key_insights_count
                  recommendations_count := synth.recommendations_count }
              report_paths := report_paths
              workflow_state := snapshotOf finalState }
          updateJob jobs2 job_id (fun r =>
            { r with status := "completed"
                     workflow_state := some (snapshotOf finalState)
                     result := some payload })

/-- The `ChatJobStatusResponse` model. -/
structure JobStatusResponse where
  job_id : String
  status : String
  error : Option String
  workflow_state : Option StateSnapshot
  result : Option ChatResponseM
deriving Repr, DecidableEq

/-- Outcome of `GET /chats/status/{job_id}`. -/
inductive StatusResult where
  | notFound
  | ok (resp : JobStatusResponse)
deriving Repr, DecidableEq

/-- `chats_status`: a pure read of the job map (404 when the id is
unknown); by its type it cannot modify the map. -/
def chats_status (jobs : JobMap) (job_id : String) : StatusResult :=
  match lookupJob jobs job_id with
  | none => StatusResult.notFound
  | some job =>
      StatusResult.ok
        { job_id := job_id
          status := job.status
          error := job.error
          workflow_state := job.workflow_state
          result := job.result }

/-- Outcome of `GET /reports/{report_type}/{filename}`. -/
inductive ReportResponse where
  | http400 (detail : String)
  | http404 (detail : String)
  | file (path media_type filename : String)
deriving Repr, DecidableEq

/-- `download_report(report_type, filename)`.  The filesystem is abstracted
as the predicate `fsExists`; `Path("outputs") / filename` is the string path
`"outputs/" ++ filename`. -/
def download_report (fsExists : String → Bool) (report_type filename : String) :
    ReportResponse :=
  if report_type ≠ "pdf" ∧ report_type ≠ "excel" then
    ReportResponse.http400 "Invalid report type"
  else if strContainsSub filename ".." || strContainsSub filename "/" ||
      strContainsSub filename "\\" then
    ReportResponse.http400 "Invalid filename"
  else
    let report_path := "outputs/" ++ filename
    if fsExists report_path then
      ReportResponse.file report_path
        (if report_type = "pdf" then "application/pdf"
         else "application/vnd.openxmlformats-officedocument.spreadsheetml.sheet")
        filename
    else
      ReportResponse.http404 "Report not found"

/-- The molecule computation of the synchronous `POST /chats` endpoint
(`src/api/main.py`, lines 114-125).  Python's conditional expression binds
loosest, so line 116 parses as
`(request.molecule or request.message.split()[0]) if request.message else
"Unknown"`: an empty message yields `"Unknown"` no matter what molecule the
request carries, and a non-empty message with no (truthy) explicit molecule
evaluates `split()[0]`, raising `IndexError` (`Except.error ()`) when the
message is all whitespace.  The follow-up block then strips surrounding
quotes off the first word. -/
def chats_extract_molecule (rmol : Option String) (message : String) :
    Except Unit String :=
  if message = "" then Except.ok "Unknown"
  else
    match
      (if pyTruthy rmol then Except.ok (rmol.getD "")
       else
         match pySplit message with
         | [] => Except.error ()
         | w :: _ => Except.ok w) with
    | Except.error e => Except.error e
    | Except.ok m0 =>
        if !(pyTruthy rmol) then
          match pySplit message with
          | [] => Except.ok m0
          | w :: _ => Except.ok (stripQuotes w)
        else Except.ok m0

/-! ## Spec-side definitions and concrete fixtures

`iqviaFindingsSpec` is written from the wording of the claim about the IQVIA
key findings, to be compared against `extract_key_findings` (which is
translated from the source).  The `*Fix` definitions are concrete inputs
used by witnesses and counterexamples. -/

/-- The IQVIA key findings as the specification describes them: exactly one
market-size finding (Large iff the size exceeds 1000, Moderate iff it is in
(500, 1000], Emerging otherwise), exactly one CAGR finding (thresholds 5 and
0), exactly one competition finding (thresholds 5 and 15), and one
therapy-area finding iff the therapy-area list is non-empty. -/
def iqviaFindingsSpec (data : IqviaData) : List String :=
  let ms := data.market_size_usd_millions
  let cagr := data.cagr_percent
  let comp := data.competition.total_competitors
  [ (if ms > 1000 then "Large market size: $" ++ toString ms ++ "M USD"
     else if 500 < ms ∧ ms ≤ 1000 then
       "Moderate market size: $" ++ toString ms ++ "M USD"
     else "Emerging market: $" ++ toString ms ++ "M USD"),
    (if cagr > 5 then "Strong growth trajectory: " ++ toString cagr ++ "% CAGR"
     else if 0 < cagr ∧ cagr ≤ 5 then
       "Stable growth: " ++ toString cagr ++ "% CAGR"
     else "Declining market: " ++ toString cagr ++ "% CAGR"),
    (if comp < 5 then "Low competition: " ++ toString comp ++ " competitors"
     else if 5 ≤ comp ∧ comp < 15 then
       "Moderate competition: " ++ toString comp ++ " competitors"
     else "High competition: " ++ toString comp ++ " competitors") ] ++
  (if data.therapy_areas = [] then []
   else ["Key therapy areas: " ++ String.intercalate ", " data.therapy_areas])

/-- The filename rejection test of `download_report`. -/
def badFilename (filename : String) : Bool :=
  strContainsSub filename ".." || strContainsSub filename "/" ||
    strContainsSub filename "\\"

/-- A successful worker-agent result, as a fixture. -/
def okInsights : AgentInsights :=
  { agent_name := "IQVIA Insights Agent"
    role := "Market Intelligence Analyst"
    molecule := "Metformin"
    analysis := "analysis text"
    key_findings := ["finding"]
    recommendations := ["recommendation"] }

/-- An environment in which every agent analysis succeeds. -/
def envAllOk : Env :=
  { analyses := fun _ _ _ => Except.ok okInsights
    llmSynthesis := fun _ _ _ => "synthesis text" }

/-- An environment in which the IQVIA agent's `analyze` raises `boom` and
every other analysis succeeds. -/
def envIqviaBoom : Env :=
  { analyses := fun name _ _ =>
      if name = "iqvia" then Except.error "boom" else Except.ok okInsights
    llmSynthesis := fun _ _ _ => "synthesis text" }

/-- An API environment whose report generator always raises. -/
def apiEnvFix : ApiEnv :=
  { env := envAllOk
    genReports := fun _ => Except.error "report generation failed" }

/-- Fixture draws for the IQVIA generator. -/
def iqviaRandFix : IqviaRand :=
  { base_market_size := 1200
    cagr := 6
    competition_count := 4
    selected_therapy_areas := ["Oncology"]
    market_concentration := "High"
    insight_concentration := "Low" }

/-- Fixture draws for the EXIM generator. -/
def eximRandFix : EximRand :=
  { top_exporters := ["China", "India"]
    top_importers := ["USA", "UK"]
    selected_formulations := ["Tablet", "Capsule"]
    import_dependency_percent := 80
    exporter_volumes := [100, 200]
    importer_volumes := [300, 400]
    total_import_volume := 1000
    total_export_volume := 500
    trade_trend := "Stable" }

/-- Fixture draws for the patent generator. -/
def patentRandFix : PatentRand :=
  { patent_draws :=
      [{ years_ago := 2, patent_type := "Formulation", assignee := "PharmaCorp Inc.",
         number := 12345678, jurisdiction := "US" }]
    top_assignee_pick := "PharmaCorp Inc." }

/-- Fixture draws for the clinical trials generator. -/
def trialDrawsFix : List TrialDraw :=
  [{ nct := 12345678, sponsor := "National Institutes of Health",
     phase := "Phase 2", status := "Recruiting", indication := "Obesity",
     start_days_ago := 100, duration_days := 400, countries := ["USA"],
     participants := 120 }]

/-- Fixture draws for the internal-documents generator. -/
def internalRandFix : InternalRand :=
  { doc_draws :=
      [{ doc_type := "Strategy Deck", department := "R&D Strategy",
         doc_id := 1234, month := 3, day := 7,
         key_takeaways := ["takeaway"], relevance_score := 9/10 }]
    strategy_alignment := "High"
    priority_level := "Top Priority - Active Development"
    field_insights_sample := ["insight"]
    top_department_pick := "R&D Strategy" }

/-- Fixture draws for the web-intelligence generator. -/
def webRandFix : WebRand :=
  { result_draws :=
      [{ source_type := "Scientific Publication", source := "PubMed",
         title_idx := 0, month := 5, day := 9, snippet_idx := 1,
         relevance_score := 4/5 }]
    evidence_quality := "Strong" }

/-- A filesystem fixture on which exactly `outputs/report.pdf` exists. -/
def fsFix : String → Bool :=
  fun p => p == "outputs/report.pdf"

/-! ## Helper lemmas -/

theorem setAgentResult_agents_completed (a : String) (res : Option ResultDict)
    (st : WorkflowState) :
    (setAgentResult a res st).agents_completed = st.agents_completed := by
  unfold setAgentResult
  split <;> rfl

theorem setAgentResult_agents_failed (a : String) (res : Option ResultDict)
    (st : WorkflowState) :
    (setAgentResult a res st).agents_failed = st.agents_failed := by
  unfold setAgentResult
  split <;> rfl

theorem setAgentResult_molecule (a : String) (res : Option ResultDict)
    (st : WorkflowState) :
    (setAgentResult a res st).molecule = st.molecule := by
  unfold setAgentResult
  split <;> rfl

theorem setAgentResult_context (a : String) (res : Option ResultDict)
    (st : WorkflowState) :
    (setAgentResult a res st).context = st.context := by
  unfold setAgentResult
  split <;> rfl

theorem getAgentResult_messages_update (a : String) (st : WorkflowState)
    (m : List String) :
    getAgentResult a { st with messages := m } = getAgentResult a st := by
  unfold getAgentResult
  split <;> rfl

theorem getAgentResult_setAgentResult (a : String) (res : Option ResultDict)
    (st : WorkflowState) (h : a ∈ workerAgentNames) :
    getAgentResult a (setAgentResult a res st) = res := by
  have h6 : a = "iqvia" ∨ a = "exim" ∨ a = "patent" ∨ a = "clinical_trials" ∨
      a = "internal" ∨ a = "web" := by
    simpa [workerAgentNames] using h
  rcases h6 with rfl | rfl | rfl | rfl | rfl | rfl <;> rfl

theorem execute_agent_isOk (env : Env) (a m : String) (c : Context)
    (h : a ∈ workerAgentNames) :
    ∃ r, execute_agent env a m c = Except.ok r := by
  unfold execute_agent
  rw [if_pos h]
  cases env.analyses a m c with
  | ok r => exact ⟨ResultDict.insights r, rfl⟩
  | error e => exact ⟨ResultDict.failedAgent (agentDisplayName a) e, rfl⟩

theorem execute_node_updates (env : Env) (a : String) (st : WorkflowState)
    (h : a ∈ workerAgentNames) :
    (execute_node env a st).agents_completed = st.agents_completed ++ [a] ∧
    (execute_node env a st).agents_failed = st.agents_failed := by
  obtain ⟨r, hr⟩ := execute_agent_isOk env a st.molecule st.context h
  refine ⟨?_, ?_⟩ <;>
    simp [execute_node, hr, setAgentResult_agents_completed,
      setAgentResult_agents_failed]

theorem foldl_execute_node_lists (env : Env) (names : List String)
    (h : ∀ a ∈ names, a ∈ workerAgentNames) (st : WorkflowState) :
    ((names.foldl (fun s a => execute_node env a s) st).agents_completed =
      st.agents_completed ++ names) ∧
    ((names.foldl (fun s a => execute_node env a s) st).agents_failed =
      st.agents_failed) := by
  induction names generalizing st with
  | nil => simp
  | cons a tl ih =>
      have ha : a ∈ workerAgentNames := h a (List.mem_cons_self a tl)
      have htl : ∀ x ∈ tl, x ∈ workerAgentNames :=
        fun x hx => h x (List.mem_cons_of_mem a hx)
      obtain ⟨ihc, ihf⟩ := ih htl (execute_node env a st)
      obtain ⟨hc, hf⟩ := execute_node_updates env a st ha
      constructor
      · rw [List.foldl_cons, ihc, hc, List.append_assoc, List.singleton_append]
      · rw [List.foldl_cons, ihf, hf]

theorem workflowRun_agent_lists (env : Env) (m q : String) (c : Option Context) :
    (workflowRun env m q c).agents_completed = workerAgentNames ∧
    (workflowRun env m q c).agents_failed = [] := by
  have hrun : workflowRun env m q c =
      synthesize_node env
        (workerAgentNames.foldl (fun s a => execute_node env a s)
          (plan_node (initialState m q c))) := rfl
  obtain ⟨hc, hf⟩ := foldl_execute_node_lists env workerAgentNames
    (fun x hx => hx) (plan_node (initialState m q c))
  rw [hrun]
  constructor
  · rw [show ∀ s, (synthesize_node env s).agents_completed = s.agents_completed
        from fun _ => rfl]
    rw [hc]
    rfl
  · rw [show ∀ s, (synthesize_node env s).agents_failed = s.agents_failed
        from fun _ => rfl]
    rw [hf]
    rfl

/-! ## Claims -/

/-- Claim C4: for every user query and molecule name,
`determine_agents_to_run` returns exactly
`["iqvia", "exim", "patent", "clinical_trials", "internal", "web"]`
regardless of the query's content, and the plan node stores this list in
`agents_to_run` while resetting `agents_completed` and `agents_failed` to
empty lists. -/
theorem plan_selects_all_six_agents :
    ∀ (query molecule : String) (st : WorkflowState),
      determine_agents_to_run query molecule =
        ["iqvia", "exim", "patent", "clinical_trials", "internal", "web"] ∧
      (plan_node st).agents_to_run =
        ["iqvia", "exim", "patent", "clinical_trials", "internal", "web"] ∧
      (plan_node st).agents_completed = [] ∧
      (plan_node st).agents_failed = [] :=
  fun _ _ _ => ⟨rfl, rfl, rfl, rfl⟩

/-- Claim C3: for every molecule, query and context the graph executes the
nodes in the fixed order plan, iqvia, exim, patent, clinical_trials,
internal, web, synthesize and then ends; the stream of state updates (the
sequence handed to `on_state_update`) has exactly eight entries, the state
after each node in order; `run` returns the state of the last update, whose
`current_step` is `"completed"`. -/
theorem run_executes_fixed_order_and_streams :
    ∀ (env : Env) (m q : String) (c : Option Context),
      walkFrom entryPoint 20 = executionOrder ∧
      successors "synthesize" = [ENDNODE] ∧
      (let s0 := initialState m q c
       let s1 := applyNode env "plan" s0
       let s2 := applyNode env "execute_iqvia" s1
       let s3 := applyNode env "execute_exim" s2
       let s4 := applyNode env "execute_patent" s3
       let s5 := applyNode env "execute_clinical_trials" s4
       let s6 := applyNode env "execute_internal" s5
       let s7 := applyNode env "execute_web" s6
       let s8 := applyNode env "synthesize" s7
       runStream env m q c = [s1, s2, s3, s4, s5, s6, s7, s8] ∧
       (runStream env m q c).length = 8 ∧
       workflowRun env m q c = s8 ∧
       s8.current_step = "completed") := by
  intro env m q c
  exact ⟨by decide, by decide, rfl, rfl, rfl, rfl⟩

/-- Claim C2 counterexample: the claim says the six worker agents run
concurrently (a fan-out from the plan step, one pooled task per agent)
rather than one after another; but the built graph gives `plan` the single
successor `execute_iqvia`, contains no edge from `plan` to any other
execution node, and every node has at most one out-edge, so no two agents
can ever execute in the same step. -/
theorem no_parallel_fanout_counterexample :
    successors entryPoint = ["execute_iqvia"] ∧
    ("plan", "execute_exim") ∉ graphEdges ∧
    ("plan", "execute_patent") ∉ graphEdges ∧
    ("plan", "execute_clinical_trials") ∉ graphEdges ∧
    ("plan", "execute_internal") ∉ graphEdges ∧
    ("plan", "execute_web") ∉ graphEdges ∧
    (graphNodes.all (fun n => (successors n).length ≤ 1)) = true := by
  decide

/-- Claim C2 (amended): the Master Agent's six worker agents are executed
sequentially, one after another, in the fixed chain
plan → iqvia → exim → patent → clinical_trials → internal → web →
synthesize: every edge of the graph is its source's only out-edge, and
following the chain from the entry point visits the nodes in exactly the
execution order. -/
theorem agents_execute_sequentially :
    (∀ e ∈ graphEdges, successors e.1 = [e.2]) ∧
    successors entryPoint = ["execute_iqvia"] ∧
    walkFrom entryPoint 20 =
      ["plan", "execute_iqvia", "execute_exim", "execute_patent",
       "execute_clinical_trials", "execute_internal", "execute_web",
       "synthesize"] := by
  refine ⟨?_, by decide, by decide⟩
  decide

/-- Witness for `agents_execute_sequentially` at the first edge. -/
theorem agents_execute_sequentially_witness :
    ("plan", "execute_iqvia") ∈ graphEdges ∧
    successors "plan" = ["execute_iqvia"] :=
  ⟨by decide, agents_execute_sequentially.1 ("plan", "execute_iqvia") (by decide)⟩

/-- Claim C1 counterexample: the claim says an exception raised by an
agent's analysis makes its execution node append the agent to
`agents_failed`; but in the run below the IQVIA analysis raises `"boom"`,
the result slot does get the error record with status `"failed"`, yet
`agents_failed` stays empty and `"iqvia"` is appended to `agents_completed`
(the node's handler never fires because `MasterAgent.execute_agent` already
caught the exception). -/
theorem analysis_exception_counterexample :
    envIqviaBoom.analyses "iqvia" "Metformin" [] = Except.error "boom" ∧
    (workflowRun envIqviaBoom "Metformin" "analyze" none).agents_failed = [] ∧
    (workflowRun envIqviaBoom "Metformin" "analyze" none).agents_completed =
      ["iqvia", "exim", "patent", "clinical_trials", "internal", "web"] ∧
    (workflowRun envIqviaBoom "Metformin" "analyze" none).iqvia_result =
      some (ResultDict.failedAgent "IQVIA Insights Agent" "boom") :=
  ⟨rfl, rfl, rfl, rfl⟩

/-- Claim C1 (amended): each execution node appends its agent's name to
`agents_completed` whether or not the agent's analysis raises, because
`MasterAgent.execute_agent` catches the exception and returns an error
record; the node stores in the result slot the insights dict on success and
the error record (whose status is `"failed"`) on an analysis exception,
and `agents_failed` is only ever extended when `execute_agent` itself
raises, which cannot happen for the six hardcoded agent names. -/
theorem per_agent_tracking (env : Env) (st : WorkflowState) (a : String)
    (h : a ∈ workerAgentNames) :
    (execute_node env a st).agents_completed = st.agents_completed ++ [a] ∧
    (execute_node env a st).agents_failed = st.agents_failed ∧
    getAgentResult a (execute_node env a st) =
      some (match env.analyses a st.molecule st.context with
            | Except.ok r => ResultDict.insights r
            | Except.error e => ResultDict.failedAgent (agentDisplayName a) e) ∧
    (∀ e, env.analyses a st.molecule st.context = Except.error e →
      (getAgentResult a (execute_node env a st)).map ResultDict.status =
        some (some "failed")) := by
  obtain ⟨hc, hf⟩ := execute_node_updates env a st h
  have hslot : getAgentResult a (execute_node env a st) =
      some (match env.analyses a st.molecule st.context with
            | Except.ok r => ResultDict.insights r
            | Except.error e => ResultDict.failedAgent (agentDisplayName a) e) := by
    cases hv : env.analyses a st.molecule st.context with
    | ok r =>
        have hea : execute_agent env a st.molecule st.context =
            Except.ok (ResultDict.insights r) := by
          unfold execute_agent
          rw [if_pos h, hv]
        simp only [execute_node, hea, getAgentResult_messages_update,
          getAgentResult_setAgentResult a _ _ h]
    | error e =>
        have hea : execute_agent env a st.molecule st.context =
            Except.ok (ResultDict.failedAgent (agentDisplayName a) e) := by
          unfold execute_agent
          rw [if_pos h, hv]
        simp only [execute_node, hea, getAgentResult_messages_update,
          getAgentResult_setAgentResult a _ _ h]
  refine ⟨hc, hf, hslot, ?_⟩
  intro e he
  rw [hslot, he]
  rfl

/-- Witness for `per_agent_tracking`: the IQVIA node under `envIqviaBoom`. -/
theorem per_agent_tracking_witness :
    (execute_node envIqviaBoom "iqvia" (initialState "Metformin" "q" none)).agents_completed
        = (initialState "Metformin" "q" none).agents_completed ++ ["iqvia"] ∧
    (execute_node envIqviaBoom "iqvia" (initialState "Metformin" "q" none)).agents_failed
        = (initialState "Metformin" "q" none).agents_failed :=
  ⟨(per_agent_tracking envIqviaBoom (initialState "Metformin" "q" none) "iqvia"
      (by decide)).1,
   (per_agent_tracking envIqviaBoom (initialState "Metformin" "q" none) "iqvia"
      (by decide)).2.1⟩

/-- Claim C5: throughout any run, `agents_completed` and `agents_failed`
stay disjoint and duplicate-free; each execution node appends its agent's
name to exactly one of the two lists, exactly once; and after all six
execution nodes the union of the two lists holds each of the six agent
names exactly once. -/
theorem completed_failed_partition :
    ∀ (env : Env) (m q : String) (c : Option Context),
      ((workflowRun env m q c).agents_completed ++
        (workflowRun env m q c).agents_failed).Nodup ∧
      (∀ a ∈ workerAgentNames,
        ((workflowRun env m q c).agents_completed ++
          (workflowRun env m q c).agents_failed).count a = 1) ∧
      (∀ a, a ∈ (workflowRun env m q c).agents_completed →
        a ∉ (workflowRun env m q c).agents_failed) ∧
      (∀ (st : WorkflowState) (a : String), a ∈ workerAgentNames →
        ((execute_node env a st).agents_completed = st.agents_completed ++ [a] ∧
          (execute_node env a st).agents_failed = st.agents_failed) ∨
        ((execute_node env a st).agents_completed = st.agents_completed ∧
          (execute_node env a st).agents_failed = st.agents_failed ++ [a])) := by
  intro env m q c
  obtain ⟨hc, hf⟩ := workflowRun_agent_lists env m q c
  refine ⟨?_, ?_, ?_, ?_⟩
  · rw [hc, hf]
    decide
  · intro a ha
    rw [hc, hf]
    have h6 : a = "iqvia" ∨ a = "exim" ∨ a = "patent" ∨ a = "clinical_trials" ∨
        a = "internal" ∨ a = "web" := by
      simpa [workerAgentNames] using ha
    rcases h6 with rfl | rfl | rfl | rfl | rfl | rfl <;> decide
  · intro a _
    rw [hf]
    simp
  · intro st a ha
    exact Or.inl (execute_node_updates env a st ha)

/-- Witness for `completed_failed_partition`: the count of `"iqvia"` in a
concrete full run. -/
theorem completed_failed_partition_witness :
    ("iqvia" ∈ workerAgentNames) ∧
    ((workflowRun envAllOk "Metformin" "q" none).agents_completed ++
      (workflowRun envAllOk "Metformin" "q" none).agents_failed).count "iqvia" = 1 :=
  ⟨by decide,
   (completed_failed_partition envAllOk "Metformin" "q" none).2.1 "iqvia" (by decide)⟩

theorem keysOf_updateJob (jobs : JobMap) (job_id : String)
    (f : JobRecord → JobRecord) :
    keysOf (updateJob jobs job_id f) = keysOf jobs := by
  induction jobs with
  | nil => rfl
  | cons p tl ih =>
      show (if (p.1 == job_id) = true then (p.1, f p.2) else p).1 ::
          keysOf (updateJob tl job_id f) = p.1 :: keysOf tl
      rw [ih]
      exact congrArg (fun x => x :: keysOf tl) (by split <;> rfl)

theorem keysOf_snapshot_foldl (states : List WorkflowState) (job_id : String)
    (jobs : JobMap) :
    keysOf (states.foldl
      (fun js st => updateJob js job_id
        (fun r => { r with workflow_state := some (snapshotOf st) })) jobs) =
      keysOf jobs := by
  induction states generalizing jobs with
  | nil => rfl
  | cons s tl ih => rw [List.foldl_cons, ih, keysOf_updateJob]

theorem lookupJob_append_fresh (jobs : JobMap) (jid : String) (rec : JobRecord) :
    jid ∉ keysOf jobs → lookupJob (jobs ++ [(jid, rec)]) jid = some rec := by
  induction jobs with
  | nil => intro _; simp [lookupJob, List.lookup]
  | cons p tl ih =>
      intro h
      obtain ⟨k, v⟩ := p
      simp only [keysOf, List.map_cons, List.mem_cons, not_or] at h
      obtain ⟨h1, h2⟩ := h
      have hb : (jid == k) = false := beq_eq_false_iff_ne.mpr h1
      have htl := ih (by simpa [keysOf] using h2)
      simpa [lookupJob, List.lookup, hb] using htl

theorem lookupJob_append_other (jobs : JobMap) (jid k : String) (rec : JobRecord)
    (h : k ≠ jid) : lookupJob (jobs ++ [(jid, rec)]) k = lookupJob jobs k := by
  induction jobs with
  | nil =>
      simp [lookupJob, List.lookup, beq_eq_false_iff_ne.mpr h]
  | cons p tl ih =>
      obtain ⟨k2, v⟩ := p
      cases hb : (k == k2) with
      | false => simpa [lookupJob, List.lookup, hb] using ih
      | true => simp [lookupJob, List.lookup, hb]

theorem keysOf_run_workflow_job (aenv : ApiEnv) (jobs : JobMap) (job_id : String)
    (req : ChatRequestM) :
    keysOf (run_workflow_job aenv jobs job_id req) = keysOf jobs := by
  unfold run_workflow_job
  dsimp only
  split
  · rw [keysOf_updateJob, keysOf_updateJob]
  · split
    · rw [keysOf_updateJob, keysOf_snapshot_foldl, keysOf_updateJob]
    · rw [keysOf_updateJob, keysOf_snapshot_foldl, keysOf_updateJob]

/-- Claim C6: the in-memory job map only grows.  `chats_start` with a fresh
job id appends exactly one new entry, with status `"queued"`, error `none`
and empty state/result, leaving every existing entry unchanged (the map
equals the old map plus the new pair, lookups at other keys are untouched);
the background task (`_run_workflow_job`) and any field update on a job only
rewrite existing records and preserve the key list exactly; the status
endpoint is a pure read.  No operation removes an entry. -/
theorem job_map_only_grows :
    (∀ (jobs : JobMap) (sid : Option String) (hex : String),
      (chats_start jobs sid hex).2 ∉ keysOf jobs →
      (chats_start jobs sid hex).1 =
        jobs ++ [((chats_start jobs sid hex).2, queuedJob)] ∧
      queuedJob.status = "queued" ∧ queuedJob.error = none ∧
      queuedJob.workflow_state = none ∧ queuedJob.result = none ∧
      lookupJob (chats_start jobs sid hex).1 (chats_start jobs sid hex).2 =
        some queuedJob ∧
      (∀ k, k ≠ (chats_start jobs sid hex).2 →
        lookupJob (chats_start jobs sid hex).1 k = lookupJob jobs k) ∧
      keysOf (chats_start jobs sid hex).1 =
        keysOf jobs ++ [(chats_start jobs sid hex).2]) ∧
    (∀ (aenv : ApiEnv) (jobs : JobMap) (job_id : String) (req : ChatRequestM),
      keysOf (run_workflow_job aenv jobs job_id req) = keysOf jobs) ∧
    (∀ (jobs : JobMap) (job_id : String) (f : JobRecord → JobRecord),
      keysOf (updateJob jobs job_id f) = keysOf jobs) := by
  refine ⟨?_, keysOf_run_workflow_job, keysOf_updateJob⟩
  intro jobs sid hex hfresh
  have hfresh2 : pyOrStr sid "session" ++ "-" ++ hex ∉ keysOf jobs := hfresh
  have happ : (chats_start jobs sid hex).1 =
      jobs ++ [((chats_start jobs sid hex).2, queuedJob)] := by
    show setJob jobs _ queuedJob = _
    unfold setJob
    rw [if_neg hfresh2]
    rfl
  refine ⟨happ, rfl, rfl, rfl, rfl, ?_, ?_, ?_⟩
  · rw [happ]
    exact lookupJob_append_fresh jobs _ queuedJob hfresh
  · intro k hk
    rw [happ]
    exact lookupJob_append_other jobs _ k queuedJob hk
  · rw [happ]
    simp [keysOf]

/-- Witness for `job_map_only_grows`: starting a job on the empty map. -/
theorem job_map_only_grows_witness :
    keysOf (chats_start ([] : JobMap) none "abcd1234").1 =
      keysOf ([] : JobMap) ++ [(chats_start ([] : JobMap) none "abcd1234").2] :=
  (job_map_only_grows.1 ([] : JobMap) none "abcd1234"
    (by simp [keysOf])).2.2.2.2.2.2.2

/-- Claim C7 counterexample: an explicitly supplied empty-string region is a
given region, yet the IQVIA record's region field is `"Global"`, not the
given region (Python evaluates `"" or "Global"` to `"Global"`). -/
theorem region_empty_string_counterexample :
    (some "" : Option String) ≠ none ∧
    (get_mock_iqvia_data "Aspirin" (some "") iqviaRandFix).region = "Global" ∧
    (get_mock_iqvia_data "Aspirin" (some "") iqviaRandFix).region ≠ "" :=
  ⟨by decide, rfl, by decide⟩

/-- Claim C7 (amended): for every molecule name and any outcome of the
random draws, each of the six mock generators returns a record for that
molecule whose molecule field equals the input name, produced purely from
the draws with no external call; the IQVIA region field equals the given
region when it is non-empty, and `"Global"` when no region is given or the
given region is the empty string. -/
theorem mock_tools_molecule_and_region (m : String)
    (region therapy mech docf ti : Option String) (now : Int)
    (r1 : IqviaRand) (r2 : EximRand) (r3 : PatentRand) (r4 : List TrialDraw)
    (r5 : InternalRand) (r6 : WebRand) :
    (get_mock_iqvia_data m region r1).molecule = m ∧
    (get_mock_exim_data m r2).molecule = m ∧
    (get_mock_patent_data m therapy now r3).molecule = m ∧
    (get_mock_clinical_trials_data m mech now r4).molecule = m ∧
    (get_mock_internal_data m docf r5).molecule = m ∧
    (get_mock_web_data m ti r6).molecule = m ∧
    (region = none → (get_mock_iqvia_data m region r1).region = "Global") ∧
    (∀ s, region = some s → s ≠ "" →
      (get_mock_iqvia_data m region r1).region = s) ∧
    (region = some "" → (get_mock_iqvia_data m region r1).region = "Global") := by
  refine ⟨rfl, rfl, rfl, rfl, rfl, rfl, ?_, ?_, ?_⟩
  · rintro rfl
    rfl
  · rintro s rfl hs
    simp [get_mock_iqvia_data, pyOrStr, hs]
  · rintro rfl
    rfl

/-- Witness for `mock_tools_molecule_and_region` with a concrete non-empty
region. -/
theorem mock_tools_molecule_and_region_witness :
    (get_mock_iqvia_data "Aspirin" (some "US") iqviaRandFix).region = "US" ∧
    (get_mock_iqvia_data "Aspirin" (some "US") iqviaRandFix).molecule = "Aspirin" := by
  have h := mock_tools_molecule_and_region "Aspirin" (some "US") none none none
    none 0 iqviaRandFix eximRandFix patentRandFix trialDrawsFix internalRandFix
    webRandFix
  exact ⟨h.2.2.2.2.2.2.2.1 "US" rfl (by decide), h.1⟩

theorem moderate_band_eq {α : Type} (ms : Nat) (B C : α) (h : ¬ ms > 1000) :
    (if ms > 500 then B else C) = if 500 < ms ∧ ms ≤ 1000 then B else C := by
  by_cases h5 : ms > 500
  · rw [if_pos h5, if_pos ⟨h5, by omega⟩]
  · rw [if_neg h5, if_neg (fun hc => h5 hc.1)]

theorem stable_band_eq {α : Type} (c : Rat) (B C : α) (h : ¬ c > 5) :
    (if c > 0 then B else C) = if 0 < c ∧ c ≤ 5 then B else C := by
  by_cases h0 : c > 0
  · rw [if_pos h0, if_pos ⟨h0, by linarith⟩]
  · rw [if_neg h0, if_neg (fun hc => h0 hc.1)]

theorem comp_band_eq {α : Type} (n : Nat) (B C : α) (h : ¬ n < 5) :
    (if n < 15 then B else C) = if 5 ≤ n ∧ n < 15 then B else C := by
  by_cases h15 : n < 15
  · rw [if_pos h15, if_pos ⟨by omega, h15⟩]
  · rw [if_neg h15, if_neg (fun hc => h15 hc.2)]

/-- Claim C8: the IQVIA key findings are a deterministic conditional
function of the raw record: for every raw record they coincide with the
spec-side description `iqviaFindingsSpec` (exactly one market-size finding
with Large iff size > 1000, Moderate iff 500 < size ≤ 1000, else Emerging;
exactly one CAGR finding with thresholds 5 and 0; exactly one competition
finding with thresholds 5 and 15; one therapy-area finding iff the
therapy-area list is non-empty), so the findings list always has length 3
or 4, with 4 exactly when the therapy-area list is non-empty. -/
theorem iqvia_findings_conditional (data : IqviaData) :
    extract_key_findings data = iqviaFindingsSpec data ∧
    ((extract_key_findings data).length = 3 ∨
      (extract_key_findings data).length = 4) ∧
    ((extract_key_findings data).length = 4 ↔ data.therapy_areas ≠ []) := by
  have hlen : (extract_key_findings data).length =
      if data.therapy_areas = [] then 3 else 4 := by
    cases h : data.therapy_areas with
    | nil => simp [extract_key_findings, h]
    | cons a l => simp [extract_key_findings, h]
  refine ⟨?_, ?_, ?_⟩
  · have ems :
        (if data.market_size_usd_millions > 1000 then
          "Large market size: $" ++ toString data.market_size_usd_millions ++ "M USD"
        else if data.market_size_usd_millions > 500 then
          "Moderate market size: $" ++ toString data.market_size_usd_millions ++ "M USD"
        else
          "Emerging market: $" ++ toString data.market_size_usd_millions ++ "M USD") =
        (if data.market_size_usd_millions > 1000 then
          "Large market size: $" ++ toString data.market_size_usd_millions ++ "M USD"
        else if 500 < data.market_size_usd_millions ∧
            data.market_size_usd_millions ≤ 1000 then
          "Moderate market size: $" ++ toString data.market_size_usd_millions ++ "M USD"
        else
          "Emerging market: $" ++ toString data.market_size_usd_millions ++ "M USD") := by
      by_cases h : data.market_size_usd_millions > 1000
      · rw [if_pos h, if_pos h]
      · rw [if_neg h, if_neg h, moderate_band_eq _ _ _ h]
    have ecagr :
        (if data.cagr_percent > 5 then
          "Strong growth trajectory: " ++ toString data.cagr_percent ++ "% CAGR"
        else if data.cagr_percent > 0 then
          "Stable growth: " ++ toString data.cagr_percent ++ "% CAGR"
        else
          "Declining market: " ++ toString data.cagr_percent ++ "% CAGR") =
        (if data.cagr_percent > 5 then
          "Strong growth trajectory: " ++ toString data.cagr_percent ++ "% CAGR"
        else if 0 < data.cagr_percent ∧ data.cagr_percent ≤ 5 then
          "Stable growth: " ++ toString data.cagr_percent ++ "% CAGR"
        else
          "Declining market: " ++ toString data.cagr_percent ++ "% CAGR") := by
      by_cases h : data.cagr_percent > 5
      · rw [if_pos h, if_pos h]
      · rw [if_neg h, if_neg h, stable_band_eq _ _ _ h]
    have ecomp :
        (if data.competition.total_competitors < 5 then
          "Low competition: " ++ toString data.competition.total_competitors ++
            " competitors"
        else if data.competition.total_competitors < 15 then
          "Moderate competition: " ++ toString data.competition.total_competitors ++
            " competitors"
        else
          "High competition: " ++ toString data.competition.total_competitors ++
            " competitors") =
        (if data.competition.total_competitors < 5 then
          "Low competition: " ++ toString data.competition.total_competitors ++
            " competitors"
        else if 5 ≤ data.competition.total_competitors ∧
            data.competition.total_competitors < 15 then
          "Moderate competition: " ++ toString data.competition.total_competitors ++
            " competitors"
        else
          "High competition: " ++ toString data.competition.total_competitors ++
            " competitors") := by
      by_cases h : data.competition.total_competitors < 5
      · rw [if_pos h, if_pos h]
      · rw [if_neg h, if_neg h, comp_band_eq _ _ _ h]
    have eta :
        (if data.therapy_areas.isEmpty then ([] : List String)
         else ["Key therapy areas: " ++ String.intercalate ", " data.therapy_areas]) =
        (if data.therapy_areas = [] then ([] : List String)
         else ["Key therapy areas: " ++ String.intercalate ", " data.therapy_areas]) := by
      cases data.therapy_areas <;> simp
    simp only [extract_key_findings, iqviaFindingsSpec]
    rw [ems, ecagr, ecomp, eta]
  · rw [hlen]
    by_cases h : data.therapy_areas = [] <;> simp [h]
  · rw [hlen]
    by_cases h : data.therapy_areas = [] <;> simp [h]

/-- Claim C9: the report-download endpoint never serves a file outside the
outputs directory.  A report type other than pdf/excel, or a filename
containing `".."`, `"/"` or a backslash, yields HTTP 400 and the outcome is
independent of the filesystem; otherwise the endpoint serves exactly
`outputs/<filename>` when that path exists and yields HTTP 404 when it does
not; and every served file is `outputs/<filename>` for a separator-free,
traversal-free filename that exists. -/
theorem download_report_confined (fs : String → Bool) (rt fn : String) :
    ((rt ≠ "pdf" ∧ rt ≠ "excel") ∨ badFilename fn = true →
      (∃ d, download_report fs rt fn = ReportResponse.http400 d) ∧
      (∀ fs2, download_report fs rt fn = download_report fs2 rt fn)) ∧
    ((rt = "pdf" ∨ rt = "excel") → badFilename fn = false →
      (fs ("outputs/" ++ fn) = true →
        download_report fs rt fn = ReportResponse.file ("outputs/" ++ fn)
          (if rt = "pdf" then "application/pdf"
           else "application/vnd.openxmlformats-officedocument.spreadsheetml.sheet")
          fn) ∧
      (fs ("outputs/" ++ fn) = false →
        download_report fs rt fn = ReportResponse.http404 "Report not found")) ∧
    (∀ p mt f2, download_report fs rt fn = ReportResponse.file p mt f2 →
      p = "outputs/" ++ fn ∧ f2 = fn ∧ badFilename fn = false ∧
      fs ("outputs/" ++ fn) = true ∧ (rt = "pdf" ∨ rt = "excel")) := by
  refine ⟨?_, ?_, ?_⟩
  · intro hbad
    by_cases hty : rt ≠ "pdf" ∧ rt ≠ "excel"
    · constructor
      · exact ⟨"Invalid report type", by unfold download_report; rw [if_pos hty]⟩
      · intro fs2
        unfold download_report
        simp only [if_pos hty]
    · have hb : (strContainsSub fn ".." || strContainsSub fn "/" ||
          strContainsSub fn "\\") = true := by
        rcases hbad with h | h
        · exact absurd h hty
        · exact h
      constructor
      · exact ⟨"Invalid filename",
          by unfold download_report; rw [if_neg hty, if_pos hb]⟩
      · intro fs2
        unfold download_report
        simp only [if_neg hty, if_pos hb]
  · intro hty hbf
    have hty2 : ¬(rt ≠ "pdf" ∧ rt ≠ "excel") := by
      rcases hty with rfl | rfl <;> simp
    have hbf2 : ¬(strContainsSub fn ".." || strContainsSub fn "/" ||
        strContainsSub fn "\\") = true := by
      simp only [badFilename] at hbf
      simp [hbf]
    constructor
    · intro hex
      unfold download_report
      rw [if_neg hty2, if_neg hbf2, if_pos hex]
    · intro hex
      unfold download_report
      rw [if_neg hty2, if_neg hbf2, if_neg (by simp [hex])]
  · intro p mt f2 h
    unfold download_report at h
    dsimp only at h
    by_cases h1 : rt ≠ "pdf" ∧ rt ≠ "excel"
    · rw [if_pos h1] at h
      exact ReportResponse.noConfusion h
    · rw [if_neg h1] at h
      by_cases h2 : (strContainsSub fn ".." || strContainsSub fn "/" ||
          strContainsSub fn "\\") = true
      · rw [if_pos h2] at h
        exact ReportResponse.noConfusion h
      · rw [if_neg h2] at h
        by_cases h3 : fs ("outputs/" ++ fn) = true
        · rw [if_pos h3] at h
          injection h with e1 e2 e3
          refine ⟨e1.symm, e3.symm, by simpa [badFilename] using h2, h3, ?_⟩
          rcases not_and_or.mp h1 with hx | hx
          · exact Or.inl (not_not.mp hx)
          · exact Or.inr (not_not.mp hx)
        · rw [if_neg h3] at h
          exact ReportResponse.noConfusion h

/-- Witness for `download_report_confined`: a good request serves the file,
a bad report type is rejected. -/
theorem download_report_confined_witness :
    download_report fsFix "pdf" "report.pdf" =
      ReportResponse.file "outputs/report.pdf" "application/pdf" "report.pdf" ∧
    (∃ d, download_report fsFix "zip" "x" = ReportResponse.http400 d) := by
  constructor
  · have h := ((download_report_confined fsFix "pdf" "report.pdf").2.1
      (Or.inl rfl) (by decide)).1 (by decide)
    exact h.trans (by decide)
  · exact ((download_report_confined fsFix "zip" "x").1 (Or.inl (by decide))).1

/-- Claim C10 counterexample: the claim says a non-empty message with no
explicit molecule yields the first whitespace-separated word; but a
whitespace-only message is non-empty, has no first word, and makes the
endpoint raise `IndexError` at `split()[0]` instead of producing any
molecule. -/
theorem whitespace_message_counterexample :
    (" " ≠ "") ∧ pySplit " " = [] ∧
    chats_extract_molecule none " " = Except.error () ∧
    ∀ w, chats_extract_molecule none " " ≠ Except.ok w := by
  refine ⟨by decide, by decide, rfl, ?_⟩
  intro w h
  rw [show chats_extract_molecule none " " = Except.error () from rfl] at h
  exact Except.noConfusion h

/-- Claim C10 (amended): an empty message makes the molecule `"Unknown"`
even when an explicit molecule is supplied; a non-empty message with no
explicit molecule yields the first whitespace-separated word stripped of
surrounding quote characters when such a word exists, and raises
`IndexError` (HTTP 500) when the message is all whitespace. -/
theorem chats_molecule_extraction :
    (∀ rmol : Option String, chats_extract_molecule rmol "" = Except.ok "Unknown") ∧
    (∀ (message w : String) (ws : List String), message ≠ "" →
      pySplit message = w :: ws →
      chats_extract_molecule none message = Except.ok (stripQuotes w)) ∧
    (∀ message : String, message ≠ "" → pySplit message = [] →
      chats_extract_molecule none message = Except.error ()) := by
  refine ⟨fun _ => rfl, ?_, ?_⟩
  · intro message w ws hne hsplit
    unfold chats_extract_molecule
    rw [if_neg hne]
    simp [pyTruthy, hsplit]
  · intro message hne hsplit
    unfold chats_extract_molecule
    rw [if_neg hne]
    simp [pyTruthy, hsplit]

/-- Witness for `chats_molecule_extraction`: a two-word message with no
explicit molecule. -/
theorem chats_molecule_extraction_witness :
    chats_extract_molecule none "Metformin please" = Except.ok "Metformin" := by
  have h := chats_molecule_extraction.2.1 "Metformin please" "Metformin" ["please"]
    (by decide) (by decide)
  exact h.trans (congrArg Except.ok (by decide))

end Pharma
